import Mathlib

/-!
Verification of the MediPredict / MedAlert adherence pipeline.

This file shallowly embeds the data model and the operations of the
repository's prototype applications and proves properties about them:

* the SQLite-backed dose-log store of src/15.py (tables users / meds / doses,
  with the CHECK constraint on the dose status) and of src/12medi.py
  (tables users / meds / dose_log, with an integer taken flag);
* the feature builders and logistic-regression pipelines of
  src/15.py (hour, weekday-name features, miss label, default OneHotEncoder)
  and src/12medi.py (hour, dayofweek, time_of_day slot features, taken label,
  OneHotEncoder with handle_unknown set to ignore);
* the per-patient and global log queries of src/1medipredict.py;
* the SHA-256 password hashing of src/15.py and src/12medi.py.

Timestamps are modelled as minutes elapsed since a Monday midnight, so that
hour-of-day and day-of-week extraction match the datetime / pandas accessors
used by the source (dayofweek 0 is Monday, as in pandas).  Machine words in
the SHA-256 embedding are naturals reduced modulo 2 ^ 32.
-/

/-! ### SHA-256 (embeds hashlib.sha256(...).hexdigest() used by hash_pw) -/

/-- 2 ^ 32, the word modulus of SHA-256. -/
def M32 : Nat := 4294967296

/-- Right rotation of a 32-bit word. -/
def rotr32 (x n : Nat) : Nat := ((x >>> n) ||| (x <<< (32 - n))) % M32

/-- Bitwise complement on 32-bit words. -/
def bnot32 (x : Nat) : Nat := x ^^^ 4294967295

def bigSigma0 (x : Nat) : Nat := rotr32 x 2 ^^^ rotr32 x 13 ^^^ rotr32 x 22

def bigSigma1 (x : Nat) : Nat := rotr32 x 6 ^^^ rotr32 x 11 ^^^ rotr32 x 25

def smallSigma0 (x : Nat) : Nat := rotr32 x 7 ^^^ rotr32 x 18 ^^^ (x >>> 3)

def smallSigma1 (x : Nat) : Nat := rotr32 x 17 ^^^ rotr32 x 19 ^^^ (x >>> 10)

def chFn (x y z : Nat) : Nat := (x &&& y) ^^^ (bnot32 x &&& z)

def majFn (x y z : Nat) : Nat := (x &&& y) ^^^ (x &&& z) ^^^ (y &&& z)

/-- The 64 SHA-256 round constants of FIPS 180-4, in decimal. -/
def shaK : List Nat :=
  [1116352408, 1899447441, 3049323471, 3921009573,
   961987163, 1508970993, 2453635748, 2870763221,
   3624381080, 310598401, 607225278, 1426881987,
   1925078388, 2162078206, 2614888103, 3248222580,
   3835390401, 4022224774, 264347078, 604807628,
   770255983, 1249150122, 1555081692, 1996064986,
   2554220882, 2821834349, 2952996808, 3210313671,
   3336571891, 3584528711, 113926993, 338241895,
   666307205, 773529912, 1294757372, 1396182291,
   1695183700, 1986661051, 2177026350, 2456956037,
   2730485921, 2820302411, 3259730800, 3345764771,
   3516065817, 3600352804, 4094571909, 275423344,
   430227734, 506948616, 659060556, 883997877,
   958139571, 1322822218, 1537002063, 1747873779,
   1955562222, 2024104815, 2227730452, 2361852424,
   2428436474, 2756734187, 3204031479, 3329325298]

/-- The eight working words of the SHA-256 state. -/
structure Hash8 where
  r0 : Nat
  r1 : Nat
  r2 : Nat
  r3 : Nat
  r4 : Nat
  r5 : Nat
  r6 : Nat
  r7 : Nat
  deriving DecidableEq

/-- The SHA-256 initial hash value of FIPS 180-4, in decimal. -/
def shaInit : Hash8 :=
  ⟨1779033703, 3144134277, 1013904242, 2773480762,
   1359893119, 2600822924, 528734635, 1541459225⟩

/-- Merkle-Damgard padding: append 0x80, zeros and the 64-bit bit length. -/
def padBytes (msg : List Nat) : List Nat :=
  let n := msg.length
  let lenBits := n * 8
  msg ++ [128] ++ List.replicate ((119 - n % 64) % 64) 0 ++
    [lenBits / 72057594037927936 % 256, lenBits / 281474976710656 % 256,
     lenBits / 1099511627776 % 256, lenBits / 4294967296 % 256,
     lenBits / 16777216 % 256, lenBits / 65536 % 256,
     lenBits / 256 % 256, lenBits % 256]

/-- Big-endian grouping of bytes into 32-bit words. -/
def bytesToWords : List Nat → List Nat
  | b0 :: b1 :: b2 :: b3 :: rest =>
      (((b0 * 256 + b1) * 256 + b2) * 256 + b3) :: bytesToWords rest
  | _ => []

/-- Split a word list into 16-word blocks. -/
def chunk16 (ws : List Nat) : List (List Nat) :=
  if h : ws = [] then []
  else ws.take 16 :: chunk16 (ws.drop 16)
termination_by ws.length
decreasing_by
  simp only [List.length_drop]
  exact Nat.sub_lt (List.length_pos.mpr h) (by norm_num)

/-- One extension step of the message schedule. -/
def scheduleStep (ws : Array Nat) : Array Nat :=
  let n := ws.size
  ws.push ((ws.getD (n - 16) 0 + smallSigma0 (ws.getD (n - 15) 0) +
            ws.getD (n - 7) 0 + smallSigma1 (ws.getD (n - 2) 0)) % M32)

/-- The 64-word message schedule of one block. -/
def fullSchedule (block : List Nat) : List Nat :=
  (scheduleStep^[48] block.toArray).toList

/-- One SHA-256 compression round. -/
def shaRound (st : Hash8) (kw : Nat × Nat) : Hash8 :=
  let t1 := (st.r7 + bigSigma1 st.r4 + chFn st.r4 st.r5 st.r6 + kw.1 + kw.2) % M32
  let t2 := (bigSigma0 st.r0 + majFn st.r0 st.r1 st.r2) % M32
  ⟨(t1 + t2) % M32, st.r0, st.r1, st.r2, (st.r3 + t1) % M32, st.r4, st.r5, st.r6⟩

/-- Compress one 512-bit block into the running state. -/
def compressBlock (st : Hash8) (block : List Nat) : Hash8 :=
  let e := (shaK.zip (fullSchedule block)).foldl shaRound st
  ⟨(st.r0 + e.r0) % M32, (st.r1 + e.r1) % M32, (st.r2 + e.r2) % M32, (st.r3 + e.r3) % M32,
   (st.r4 + e.r4) % M32, (st.r5 + e.r5) % M32, (st.r6 + e.r6) % M32, (st.r7 + e.r7) % M32⟩

/-- SHA-256 digest of a byte sequence. -/
def sha256Digest (msg : List Nat) : Hash8 :=
  (chunk16 (bytesToWords (padBytes msg))).foldl compressBlock shaInit

/-- A lower-case hexadecimal digit. -/
def hexDigit (n : Nat) : Char :=
  if n < 10 then Char.ofNat (48 + n) else Char.ofNat (87 + n)

/-- Eight hex digits of one 32-bit word, most significant first. -/
def wordHex (w : Nat) : List Char :=
  [hexDigit (w / 268435456 % 16), hexDigit (w / 16777216 % 16),
   hexDigit (w / 1048576 % 16), hexDigit (w / 65536 % 16),
   hexDigit (w / 4096 % 16), hexDigit (w / 256 % 16),
   hexDigit (w / 16 % 16), hexDigit (w % 16)]

/-- hexdigest of the SHA-256 of a byte sequence. -/
def sha256Hex (msg : List Nat) : String :=
  let d := sha256Digest msg
  String.mk (wordHex d.r0 ++ wordHex d.r1 ++ wordHex d.r2 ++ wordHex d.r3 ++
             wordHex d.r4 ++ wordHex d.r5 ++ wordHex d.r6 ++ wordHex d.r7)

/-- src/15.py hash_pw (and src/12medi.py hash_pwd):
hashlib.sha256(pw.encode()).hexdigest(). -/
def hash_pw (pw : String) : String :=
  sha256Hex (pw.toUTF8.toList.map (fun b => b.toNat))

/-- A SHA-256 hexdigest always has 64 characters. -/
theorem hash_pw_length (p : String) : (hash_pw p).length = 64 := by
  simp [hash_pw, sha256Hex, wordHex, String.length]

/-! ### Time model

Timestamps are minutes elapsed since a Monday midnight.  `tsHour` is the
datetime hour accessor, `tsDow` the pandas dayofweek accessor (Monday = 0)
and `tsDayName` the pandas day_name accessor. -/

def tsHour (t : Nat) : Nat := t / 60 % 24

def tsDow (t : Nat) : Nat := t / 1440 % 7

def dayNames : List String :=
  ["Monday", "Tuesday", "Wednesday", "Thursday", "Friday", "Saturday", "Sunday"]

def tsDayName (t : Nat) : String := dayNames.getD (tsDow t) ""

theorem tsHour_lt (t : Nat) : tsHour t < 24 := Nat.mod_lt _ (by norm_num)

theorem tsDow_lt (t : Nat) : tsDow t < 7 := Nat.mod_lt _ (by norm_num)

/-! ### src/15.py: SQLite schema and the dashboard operations -/

/-- A row of the users table of src/15.py (id, username, password, age, gender). -/
structure User15 where
  id : Nat
  username : String
  password : String
  age : Nat
  gender : String
  deriving DecidableEq

/-- A row of the meds table of src/15.py. -/
structure Med15 where
  id : Nat
  uid : Nat
  medName : String
  dosage : String
  schedule : String
  deriving DecidableEq

/-- A row of the doses table of src/15.py. -/
structure Dose15 where
  id : Nat
  uid : Nat
  medId : Nat
  ts : Nat
  status : String
  deriving DecidableEq

/-- The src/15.py database: the three tables plus the AUTOINCREMENT counters.
Rows are kept in insertion order, which is the rowid order SQLite returns for
the unordered SELECT statements the source issues. -/
structure St15 where
  users : List User15
  meds : List Med15
  doses : List Dose15
  nextUserId : Nat
  nextMedId : Nat
  nextDoseId : Nat
  deriving DecidableEq

/-- Errors surfaced by the SQLite layer of src/15.py. -/
inductive DbErr
  | integrityError
  deriving DecidableEq

/-- The empty database produced by init_db. -/
def emptySt15 : St15 := ⟨[], [], [], 1, 1, 1⟩

/-- src/15.py page_register: INSERT INTO users; the UNIQUE constraint on
username raises sqlite3.IntegrityError. The password column receives
hash_pw(p). -/
def register15 (s : St15) (u p : String) (age : Nat) (g : String) : Except DbErr St15 :=
  if s.users.any (fun w => w.username = u) then .error .integrityError
  else .ok { s with
    users := s.users ++ [⟨s.nextUserId, u, hash_pw p, age, g⟩],
    nextUserId := s.nextUserId + 1 }

/-- SELECT password FROM users WHERE username = u (first matching row). -/
def credOf15 (s : St15) (u : String) : Option String :=
  (s.users.find? (fun w => w.username = u)).map (fun w => w.password)

/-- src/15.py medicines tab: INSERT INTO meds. -/
def addMed15 (s : St15) (uid : Nat) (name dosage sched : String) : St15 :=
  { s with
    meds := s.meds ++ [⟨s.nextMedId, uid, name, dosage, sched⟩],
    nextMedId := s.nextMedId + 1 }

/-- SELECT id, med_name FROM meds WHERE user_id = uid. -/
def medsByUser15 (s : St15) (uid : Nat) : List Med15 :=
  s.meds.filter (fun m => m.uid = uid)

/-- src/15.py log-dose tab: INSERT INTO doses (user_id, med_id, timestamp,
status).  The doses table carries CHECK(status IN ('Taken','Missed')); a
violating INSERT raises sqlite3.IntegrityError and stores nothing.  No
ownership check relates med_id to user_id.  On success the fresh
AUTOINCREMENT id is returned with the new state. -/
def insertDose15 (s : St15) (uid mid ts : Nat) (status : String) :
    Except DbErr (St15 × Nat) :=
  if status = "Taken" ∨ status = "Missed" then
    .ok ({ s with
            doses := s.doses ++ [⟨s.nextDoseId, uid, mid, ts, status⟩],
            nextDoseId := s.nextDoseId + 1 },
         s.nextDoseId)
  else .error .integrityError

/-- SELECT * FROM doses WHERE user_id = uid (rowid order). -/
def dosesByUser15 (s : St15) (uid : Nat) : List Dose15 :=
  s.doses.filter (fun d => d.uid = uid)

/-- src/15.py log-dose tab: the selected med name is resolved through
meds.loc[meds.med_name == med, "id"].values[0], i.e. the first row of the
user's meds whose name matches. -/
def resolveMedId15 (s : St15) (uid : Nat) (name : String) : Option Nat :=
  (((medsByUser15 s uid).filter (fun m => m.medName = name)).head?).map (fun m => m.id)

/-- One feature row of the src/15.py insights tab: hour, day_name, and the
miss column df.status == "Missed" used as the y column of the fit. -/
structure FeatRow15 where
  hour : Nat
  day : String
  label : Bool
  deriving DecidableEq

/-- The feature table X, y built in the insights tab of src/15.py:
df.hour = timestamp.dt.hour, df.day = timestamp.dt.day_name(),
df.miss = (df.status == "Missed"). -/
def featureTable15 (ds : List Dose15) : List FeatRow15 :=
  ds.map (fun d => ⟨tsHour d.ts, tsDayName d.ts, d.status = "Missed"⟩)

/-- df.groupby(["day","hour","status"]).size(): one (key, count) pair per
distinct key occurring in the data.  Key enumeration order is immaterial to
every consumer; counts are the content. -/
def heat15 (ds : List Dose15) : List ((String × Nat × String) × Nat) :=
  ((ds.map (fun d => (tsDayName d.ts, tsHour d.ts, d.status))).dedup).map
    (fun k => (k, ds.countP (fun d => (tsDayName d.ts, tsHour d.ts, d.status) = k)))

/-- scikit-learn fit failure: LogisticRegression.fit raises ValueError when
the label column contains fewer than two distinct classes. -/
inductive FitErr15
  | singleClassValueError
  deriving DecidableEq

/-- The fitted src/15.py pipeline: the category set the OneHotEncoder learned
for the day column, and the training rows the estimator was fitted on. -/
structure Model15 where
  cats : List String
  rows : List FeatRow15
  deriving DecidableEq

/-- Pipeline([("pre", ColumnTransformer([("ohe", OneHotEncoder(), ["day"])],
remainder="passthrough")), ("clf", LogisticRegression())]).fit(X, y) of
src/15.py.  Embeds the library behaviour of the call: scikit-learn's
LogisticRegression.fit raises ValueError unless y contains at least two
distinct classes; on success the encoder retains the set of day values seen
(category enumeration order is immaterial to the encoding). -/
def fit15 (ds : List Dose15) : Except FitErr15 Model15 :=
  let rows := featureTable15 ds
  if ((rows.map (fun r => r.label)).dedup).length < 2 then
    .error .singleClassValueError
  else .ok ⟨(rows.map (fun r => r.day)).dedup, rows⟩

/-- Unseen-category rejection by the default OneHotEncoder. -/
inductive EncErr
  | unknownCategory
  deriving DecidableEq

/-- The one-hot encoding of the day column in src/15.py.  The source
constructs OneHotEncoder() with its default handle_unknown="error": a day
value outside the fitted categories raises ValueError at transform time. -/
def encodeDay15 (cats : List String) (d : String) : Except EncErr (List ℚ) :=
  if d ∈ cats then .ok (cats.map (fun c => if c = d then 1 else 0))
  else .error .unknownCategory

/-- pipe.predict_proba(DataFrame([[h, d]]))[0][1] of src/15.py, with the
fitted coefficients abstracted: wcat are the day coefficients, whour the
hour coefficient, b the intercept.  The encoder runs first, so an unseen
day propagates its ValueError. -/
noncomputable def queryRisk15 (m : Model15) (wcat : List ℝ) (whour b : ℝ) (h : Nat) (d : String) :
    Except EncErr ℝ :=
  match encodeDay15 m.cats d with
  | .error e => .error e
  | .ok v =>
      .ok (1 / (1 + Real.exp (-(b + whour * h +
        ((wcat.zip (v.map (fun q => (q : ℝ)))).foldl (fun acc p => acc + p.1 * p.2) 0)))))

/-- The insights tab of src/15.py: SELECT the user's doses; if none, no
output; otherwise the heat-map aggregation and the freshly fitted pipeline.
The tab only reads the database. -/
def insights15 (s : St15) (uid : Nat) :
    Option (List ((String × Nat × String) × Nat) × Except FitErr15 Model15) :=
  let ds := dosesByUser15 s uid
  if ds.isEmpty then none else some (heat15 ds, fit15 ds)

/-- One rendering of the insights tab as a state transition: the page issues
only SELECT statements, so the database is returned unchanged. -/
def insightsView15 (s : St15) (uid : Nat) :
    (Option (List ((String × Nat × String) × Nat) × Except FitErr15 Model15)) × St15 :=
  (insights15 s uid, s)

/-! ### src/12medi.py: dose log store and predictor -/

/-- A row of the meds table of src/12medi.py. -/
structure Med12 where
  id : Nat
  username : String
  medName : String
  dose : String
  timeOfDay : String
  deriving DecidableEq

/-- A row of the dose_log table of src/12medi.py: taken is 1 for Taken and 0
for Missed as written by log_tab, but the column itself is an unchecked
integer. -/
structure Dose12 where
  id : Nat
  username : String
  medId : Nat
  ts : Nat
  taken : Int
  deriving DecidableEq

/-- The src/12medi.py database slice the pipeline touches. -/
structure St12 where
  meds : List Med12
  log : List Dose12
  nextLogId : Nat
  deriving DecidableEq

/-- src/12medi.py log_dose: INSERT INTO dose_log (username, med_id, ts,
taken).  No validation of any argument is performed. -/
def log_dose12 (s : St12) (u : String) (mid ts : Nat) (taken : Int) : St12 :=
  { s with
    log := s.log ++ [⟨s.nextLogId, u, mid, ts, taken⟩],
    nextLogId := s.nextLogId + 1 }

/-- src/12medi.py get_logs: SELECT * FROM dose_log WHERE username = u
(rowid order, i.e. insertion order). -/
def get_logs12 (log : List Dose12) (u : String) : List Dose12 :=
  log.filter (fun d => d.username = u)

/-- One row of the feature table X, y of train_predictor in src/12medi.py:
hour and dayofweek from ts, the slot column time_of_day obtained by the left
merge with meds on med_id (None when the merge finds no med), and the y
column, which is the stored taken flag. -/
structure FeatRow12 where
  hour : Nat
  dayofweek : Nat
  timeOfDay : Option String
  label : Int
  deriving DecidableEq

/-- The left-merge lookup logs.merge(meds[["id", "time_of_day"]],
left_on="med_id", right_on="id", how="left") for one log row. -/
def lookupTime12 (meds : List Med12) (mid : Nat) : Option String :=
  (meds.find? (fun m => m.id = mid)).map (fun m => m.timeOfDay)

/-- The feature table of train_predictor in src/12medi.py. -/
def featureTable12 (logs : List Dose12) (meds : List Med12) : List FeatRow12 :=
  logs.map (fun l => ⟨tsHour l.ts, tsDow l.ts, lookupTime12 meds l.medId, l.taken⟩)

/-- How train_predictor of src/12medi.py fails: an empty log makes the
function return None before any fitting; a label column with fewer than two
distinct classes makes scikit-learn's LogisticRegression.fit raise
ValueError. -/
inductive TrainErr12
  | noLogs
  | singleClassValueError
  deriving DecidableEq

/-- The fitted pipeline of src/12medi.py: the categories the
OneHotEncoder(handle_unknown="ignore") learned for time_of_day, and the
training rows. -/
structure Model12 where
  cats : List (Option String)
  rows : List FeatRow12
  deriving DecidableEq

/-- src/12medi.py train_predictor: returns None on an empty log, otherwise
builds the feature table and fits Pipeline([("prep", ColumnTransformer([
("cat", OneHotEncoder(handle_unknown="ignore"), ["time_of_day"])],
remainder="passthrough")), ("clf", LogisticRegression(max_iter=1000))]).
Embeds the library behaviour of the fit call: LogisticRegression.fit raises
ValueError unless y contains at least two distinct classes; the encoder
retains the set of time_of_day values seen (category enumeration order is
immaterial to the encoding). -/
def train_predictor12 (logs : List Dose12) (meds : List Med12) :
    Except TrainErr12 Model12 :=
  if logs.isEmpty then .error .noLogs
  else
    let rows := featureTable12 logs meds
    if ((rows.map (fun r => r.label)).dedup).length < 2 then
      .error .singleClassValueError
    else .ok ⟨(rows.map (fun r => r.timeOfDay)).dedup, rows⟩

/-- The one-hot encoding of the time_of_day column in src/12medi.py.  The
encoder is constructed with handle_unknown="ignore": a value outside the
fitted categories encodes as the all-zero vector instead of raising. -/
def encodeSlot12 (cats : List (Option String)) (v : Option String) : List ℚ :=
  cats.map (fun c => if c = v then 1 else 0)

/-- clf.predict_proba of the fitted src/12medi.py pipeline at one query row
(hour, dayofweek, time_of_day), with the fitted coefficients abstracted:
wcat are the per-category coefficients, whour and wdow the passthrough
coefficients, b the intercept.  The logistic link maps the score through
1 / (1 + exp(-z)). -/
noncomputable def queryRisk12 (m : Model12) (wcat : List ℝ) (whour wdow b : ℝ)
    (h dow : Nat) (slot : Option String) : ℝ :=
  1 / (1 + Real.exp (-(b + whour * h + wdow * dow +
    ((wcat.zip ((encodeSlot12 m.cats slot).map (fun q => (q : ℝ)))).foldl
      (fun acc p => acc + p.1 * p.2) 0))))

/-! ### src/1medipredict.py: per-patient and global log queries -/

/-- A row of the logs table of src/1medipredict.py. -/
structure Log1 where
  id : Nat
  patientId : Nat
  medicationId : Nat
  schedTime : String
  status : String
  ts : Nat
  deriving DecidableEq

/-- src/1medipredict.py get_logs: SELECT * FROM logs, with the WHERE
patient_id clause only when a patient id is supplied. -/
def get_logs1 (logs : List Log1) : Option Nat → List Log1
  | none => logs
  | some pid => logs.filter (fun l => l.patientId = pid)

/-- The dataset prepared by the Risk Prediction menu branch of
src/1medipredict.py: it calls get_logs() with no patient filter, derives
hour and dayofweek, and maps status to the taken flag (1 for Taken, else 0).
These rows, for ALL patients, are what enters train_test_split and
LogisticRegression.fit. -/
def riskTrainTable1 (logs : List Log1) : List (Nat × Nat × Int) :=
  (get_logs1 logs none).map
    (fun l => (tsHour l.ts, tsDow l.ts, if l.status = "Taken" then 1 else 0))

/-- The per-patient log slice used by the Adherence Insights branch of
src/1medipredict.py (heat-map and adherence metric). -/
def insightsLogs1 (logs : List Log1) (pid : Nat) : List Log1 :=
  get_logs1 logs (some pid)

/-! ### Helper lemmas -/

theorem dedup_length_le_one_of_const {α : Type} [DecidableEq α] {xs : List α} {c : α}
    (h : ∀ x ∈ xs, x = c) : xs.dedup.length ≤ 1 := by
  rcases hdd : xs.dedup with _ | ⟨a, _ | ⟨b, t⟩⟩
  · simp
  · simp
  · exfalso
    have hsub : xs.dedup ⊆ xs := xs.dedup_subset
    have hnd : xs.dedup.Nodup := xs.nodup_dedup
    rw [hdd] at hsub hnd
    have ha := h a (hsub (by simp))
    have hb := h b (hsub (by simp))
    rw [List.nodup_cons] at hnd
    exact hnd.1 (by rw [ha, hb]; simp)

theorem exists_pair_ne_of_dedup {α : Type} [DecidableEq α] {xs : List α}
    (h2 : ¬ xs.dedup.length < 2) : ∃ a ∈ xs, ∃ b ∈ xs, a ≠ b := by
  rcases hdd : xs.dedup with _ | ⟨a, _ | ⟨b, t⟩⟩
  · rw [hdd] at h2; simp at h2
  · rw [hdd] at h2; simp at h2
  · have hsub : xs.dedup ⊆ xs := xs.dedup_subset
    have hnd : xs.dedup.Nodup := xs.nodup_dedup
    rw [hdd] at hsub hnd
    refine ⟨a, hsub (by simp), b, hsub (by simp), ?_⟩
    rw [List.nodup_cons] at hnd
    intro hab
    exact hnd.1 (by rw [hab]; simp)

/-- The y column of the src/12medi.py feature table is the stored taken column. -/
theorem featureTable12_labels (logs : List Dose12) (meds : List Med12) :
    (featureTable12 logs meds).map (fun r => r.label) = logs.map (fun l => l.taken) := by
  simp only [featureTable12, List.map_map]
  rfl

/-! ### C1 -/

def c1logs : List Dose12 := [⟨1, "demo", 1, 0, 1⟩, ⟨2, "demo", 1, 60, 0⟩]

def c1logsOne : List Dose12 := [⟨1, "demo", 1, 0, 1⟩, ⟨2, "demo", 1, 60, 1⟩]

def c1meds : List Med12 := [⟨1, "demo", "Metformin", "500 mg", "08:00"⟩]

/-- C1: on a feature table whose label column carries only one class, the
fit inside train_predictor (src/12medi.py) fails — scikit-learn's
LogisticRegression.fit rejects single-class data — so no model is ever
produced for predict to accept; a model is returned only when the log holds
at least one row of each label class. -/
theorem c1_fit_requires_both_classes (logs : List Dose12) (meds : List Med12)
    (hbin : ∀ l ∈ logs, l.taken = 0 ∨ l.taken = 1) :
    (((∀ l ∈ logs, l.taken = 1) ∨ (∀ l ∈ logs, l.taken = 0)) →
        ∃ e, train_predictor12 logs meds = .error e) ∧
    (∀ m, train_predictor12 logs meds = .ok m →
        (∃ l ∈ logs, l.taken = 1) ∧ (∃ l ∈ logs, l.taken = 0)) := by
  constructor
  · intro hone
    by_cases hni : logs.isEmpty
    · exact ⟨.noLogs, by simp [train_predictor12, hni]⟩
    · refine ⟨.singleClassValueError, ?_⟩
      obtain ⟨c, hc⟩ : ∃ c : Int, ∀ x ∈ logs.map (fun l => l.taken), x = c := by
        rcases hone with h1 | h0
        · exact ⟨1, by intro x hx; obtain ⟨l, hl, rfl⟩ := List.mem_map.mp hx; exact h1 l hl⟩
        · exact ⟨0, by intro x hx; obtain ⟨l, hl, rfl⟩ := List.mem_map.mp hx; exact h0 l hl⟩
      have hlen : (((featureTable12 logs meds).map (fun r => r.label)).dedup).length < 2 := by
        rw [featureTable12_labels]
        exact lt_of_le_of_lt (dedup_length_le_one_of_const hc) (by norm_num)
      simp [train_predictor12, hni, hlen]
  · intro m hm
    by_cases hni : logs.isEmpty
    · simp [train_predictor12, hni] at hm
    · have hcond : ¬ (((featureTable12 logs meds).map (fun r => r.label)).dedup).length < 2 := by
        intro hlt
        simp [train_predictor12, hni, hlt] at hm
      rw [featureTable12_labels] at hcond
      obtain ⟨a, ha, b, hb, hab⟩ := exists_pair_ne_of_dedup hcond
      obtain ⟨la, hla, rfl⟩ := List.mem_map.mp ha
      obtain ⟨lb, hlb, rfl⟩ := List.mem_map.mp hb
      rcases hbin la hla with h0a | h1a <;> rcases hbin lb hlb with h0b | h1b
      · exact absurd (h0a.trans h0b.symm) hab
      · exact ⟨⟨lb, hlb, h1b⟩, ⟨la, hla, h0a⟩⟩
      · exact ⟨⟨la, hla, h1a⟩, ⟨lb, hlb, h0b⟩⟩
      · exact absurd (h1a.trans h1b.symm) hab

/-- Witness for C1: an all-Taken log makes train_predictor fail, and a
two-class log yields a model, with one row of each class present. -/
theorem c1_fit_requires_both_classes_witness :
    (∃ e, train_predictor12 c1logsOne c1meds = .error e) ∧
    ((∃ l ∈ c1logs, l.taken = 1) ∧ (∃ l ∈ c1logs, l.taken = 0)) :=
  ⟨(c1_fit_requires_both_classes c1logsOne c1meds (by decide)).1 (Or.inl (by decide)),
   (c1_fit_requires_both_classes c1logs c1meds (by decide)).2
     ⟨[some "08:00"], [⟨0, 0, some "08:00", 1⟩, ⟨1, 0, some "08:00", 0⟩]⟩ rfl⟩

/-! ### C2 -/

/-- The logistic link always lands in the unit interval. -/
theorem logistic_mem_unit (t : ℝ) :
    0 ≤ 1 / (1 + Real.exp t) ∧ 1 / (1 + Real.exp t) ≤ 1 := by
  have hE : 0 < Real.exp t := Real.exp_pos t
  constructor
  · positivity
  · rw [div_le_one (by linarith)]
    linarith

/-- Two doses of one Monday morning, one Taken and one Missed. -/
def c2doses : List Dose15 := [⟨1, 1, 1, 480, "Taken"⟩, ⟨2, 1, 1, 485, "Missed"⟩]

/-- The pipeline src/15.py fits on c2doses: its encoder saw only Monday. -/
def c2model : Model15 := ⟨["Monday"], [⟨8, "Monday", false⟩, ⟨8, "Monday", true⟩]⟩

/-- C2 counterexample: the src/15.py pipeline, fitted on Monday-only data,
rejects a query for a day never seen during fit — its OneHotEncoder is
built with the default handle_unknown="error", so predict raises instead of
returning a probability. -/
theorem c2_counterexample :
    fit15 c2doses = .ok c2model ∧
    queryRisk15 c2model [0] 0 0 8 "Tuesday" = .error .unknownCategory :=
  ⟨rfl, rfl⟩

/-- C2 (amended): the src/12medi.py estimator degrades gracefully — its
OneHotEncoder(handle_unknown="ignore") encodes a slot label never seen
during fit as the all-zero vector, and predict_proba returns a probability
in the unit interval for every query, whatever coefficients the fit
produced; the src/15.py variant's default encoder instead raises on a day
value never seen during fit (see the counterexample), though its UI only
offers seen days. -/
theorem c2_unseen_slot_degrades_gracefully (m : Model12) (slot : Option String)
    (hs : slot ∉ m.cats) :
    (∀ (wcat : List ℝ) (whour wdow b : ℝ) (h dow : Nat) (v : Option String),
        0 ≤ queryRisk12 m wcat whour wdow b h dow v ∧
        queryRisk12 m wcat whour wdow b h dow v ≤ 1) ∧
    encodeSlot12 m.cats slot = List.replicate m.cats.length 0 := by
  constructor
  · intro wcat whour wdow b h dow v
    exact logistic_mem_unit _
  · rw [encodeSlot12, List.eq_replicate_iff]
    refine ⟨by simp, ?_⟩
    intro q hq
    obtain ⟨c, hc, rfl⟩ := List.mem_map.mp hq
    rw [if_neg]
    intro hcs
    exact hs (hcs ▸ hc)

/-- A fitted src/12medi.py model whose encoder saw only the 08:00 slot. -/
def c2model12 : Model12 := ⟨[some "08:00"], [⟨0, 0, some "08:00", 1⟩, ⟨1, 0, some "08:00", 0⟩]⟩

/-- Witness for the amended C2 at the slot 23:00, unseen during fit. -/
theorem c2_unseen_slot_degrades_gracefully_witness :
    (∀ (wcat : List ℝ) (whour wdow b : ℝ) (h dow : Nat) (v : Option String),
        0 ≤ queryRisk12 c2model12 wcat whour wdow b h dow v ∧
        queryRisk12 c2model12 wcat whour wdow b h dow v ≤ 1) ∧
    encodeSlot12 c2model12.cats (some "23:00") =
      List.replicate c2model12.cats.length 0 :=
  c2_unseen_slot_degrades_gracefully c2model12 (some "23:00") (by decide)

/-! ### C3 -/

/-- Two users, each owning one medication. -/
def c3st : St15 :=
  ⟨[⟨1, "alice", hash_pw "pw1", 30, "Other"⟩, ⟨2, "bob", hash_pw "pw2", 40, "Other"⟩],
   [⟨1, 1, "Aspirin", "100 mg", "Morning"⟩, ⟨2, 2, "Metformin", "500 mg", "Evening"⟩],
   [], 3, 3, 1⟩

/-- C3 counterexample: medication 2 belongs to user 2, yet user 1's append
of a dose for it succeeds and stores the event — the store performs no
ownership validation, so no ValidationError occurs. -/
theorem c3_counterexample :
    (∃ m ∈ c3st.meds, m.id = 2 ∧ m.uid = 2) ∧
    insertDose15 c3st 1 2 480 "Taken" =
      .ok ({ c3st with doses := [⟨1, 1, 2, 480, "Taken"⟩], nextDoseId := 2 }, 1) :=
  ⟨⟨⟨2, 2, "Metformin", "500 mg", "Evening"⟩, by decide, rfl, rfl⟩, rfl⟩

/-- C3 (amended): append stores the event and returns the fresh
AUTOINCREMENT id exactly when status is Taken or Missed — the medication's
ownership is never checked by the store (only the UI's choice list
constrains it) — while a status outside the closed set violates the
doses-table CHECK constraint, fails with sqlite3.IntegrityError and stores
nothing. -/
theorem c3_append_validation_amended (s : St15) (uid mid ts : Nat) (status : String) :
    ((status = "Taken" ∨ status = "Missed") →
      insertDose15 s uid mid ts status =
        .ok (⟨s.users, s.meds, s.doses ++ [⟨s.nextDoseId, uid, mid, ts, status⟩],
              s.nextUserId, s.nextMedId, s.nextDoseId + 1⟩, s.nextDoseId)) ∧
    (¬(status = "Taken" ∨ status = "Missed") →
      insertDose15 s uid mid ts status = .error .integrityError) := by
  constructor
  · intro hok
    simp [insertDose15, hok]
  · intro hbad
    simp only [insertDose15, if_neg hbad]

/-! ### C4 -/

/-- C4: get_logs of src/12medi.py returns exactly the user's dose events;
with the store-stamped datetime.now() timestamps non-decreasing along the
log, the returned slice is ordered by occurrence time; a user with no
events gets the empty list, not an error. -/
theorem c4_list_by_user (log : List Dose12) (u : String)
    (hmono : log.Pairwise (fun a b => a.ts ≤ b.ts)) :
    (∀ e, e ∈ get_logs12 log u ↔ e ∈ log ∧ e.username = u) ∧
    (get_logs12 log u).Pairwise (fun a b => a.ts ≤ b.ts) ∧
    ((∀ e ∈ log, e.username ≠ u) → get_logs12 log u = []) := by
  refine ⟨?_, ?_, ?_⟩
  · intro e
    simp [get_logs12, List.mem_filter]
  · exact hmono.sublist (List.filter_sublist _)
  · intro hnone
    rw [get_logs12, List.filter_eq_nil_iff]
    intro a ha
    simpa using hnone a ha

/-- Three stored events, two of them alice's, timestamps increasing. -/
def c4log : List Dose12 :=
  [⟨1, "alice", 1, 0, 1⟩, ⟨2, "bob", 1, 60, 0⟩, ⟨3, "alice", 1, 120, 0⟩]

/-- Witness for C4: alice's slice of a concrete log, plus the empty slice
of a user with no events. -/
theorem c4_list_by_user_witness :
    ((∀ e, e ∈ get_logs12 c4log "alice" ↔ e ∈ c4log ∧ e.username = "alice") ∧
     (get_logs12 c4log "alice").Pairwise (fun a b => a.ts ≤ b.ts) ∧
     ((∀ e ∈ c4log, e.username ≠ "alice") → get_logs12 c4log "alice" = [])) ∧
    get_logs12 c4log "carol" = [] :=
  ⟨c4_list_by_user c4log "alice" (by decide),
   (c4_list_by_user c4log "carol" (by decide)).2.2 (by decide)⟩

/-! ### C5 -/

/-- C5: log_dose of src/12medi.py followed by get_logs yields the user's
previous slice extended by the new event; with the AUTOINCREMENT invariant
(every stored id below the next id) the new event occurs exactly once, and
it carries exactly the taken flag, medication and timestamp passed in. -/
theorem c5_append_then_list (s : St12) (u : String) (mid ts : Nat) (taken : Int)
    (hfresh : ∀ d ∈ s.log, d.id < s.nextLogId) :
    get_logs12 (log_dose12 s u mid ts taken).log u =
      get_logs12 s.log u ++ [⟨s.nextLogId, u, mid, ts, taken⟩] ∧
    (get_logs12 (log_dose12 s u mid ts taken).log u).countP
        (fun d => d.id = s.nextLogId) = 1 ∧
    (∀ d ∈ get_logs12 (log_dose12 s u mid ts taken).log u,
        d.id = s.nextLogId → d.taken = taken ∧ d.medId = mid ∧ d.ts = ts) := by
  have happ : get_logs12 (log_dose12 s u mid ts taken).log u =
      get_logs12 s.log u ++ [⟨s.nextLogId, u, mid, ts, taken⟩] := by
    simp [log_dose12, get_logs12, List.filter_append]
  refine ⟨happ, ?_, ?_⟩
  · rw [happ, List.countP_append]
    have h0 : (get_logs12 s.log u).countP (fun d => d.id = s.nextLogId) = 0 := by
      rw [List.countP_eq_zero]
      intro d hd
      have hmem : d ∈ s.log := (List.mem_filter.mp hd).1
      have := hfresh d hmem
      simp only [decide_eq_true_eq]
      omega
    rw [h0]
    simp
  · intro d hd hid
    rw [happ] at hd
    rcases List.mem_append.mp hd with hold | hnew
    · have hmem : d ∈ s.log := (List.mem_filter.mp hold).1
      have := hfresh d hmem
      omega
    · rw [List.mem_singleton] at hnew
      subst hnew
      exact ⟨rfl, rfl, rfl⟩

/-- One med and one already-logged dose for alice. -/
def c5st : St12 :=
  ⟨[⟨1, "alice", "Aspirin", "100 mg", "08:00"⟩], [⟨1, "alice", 1, 0, 1⟩], 2⟩

/-- Witness for C5: logging a Missed dose for alice at minute 600. -/
theorem c5_append_then_list_witness :
    get_logs12 (log_dose12 c5st "alice" 1 600 0).log "alice" =
      get_logs12 c5st.log "alice" ++ [⟨c5st.nextLogId, "alice", 1, 600, 0⟩] ∧
    (get_logs12 (log_dose12 c5st "alice" 1 600 0).log "alice").countP
        (fun d => d.id = c5st.nextLogId) = 1 ∧
    (∀ d ∈ get_logs12 (log_dose12 c5st "alice" 1 600 0).log "alice",
        d.id = c5st.nextLogId → d.taken = 0 ∧ d.medId = 1 ∧ d.ts = 600) :=
  c5_append_then_list c5st "alice" 1 600 0 (by decide)

/-! ### C6 -/

/-- A dose logged as Taken on Monday 08:00. -/
def c6dose : Dose15 := ⟨1, 1, 1, 480, "Taken"⟩

/-- C6 counterexample: the src/15.py feature builder pairs this Taken event
with label 0 — its y column is the miss indicator df.status == "Missed" —
whereas the claim's labelling (1 = Taken, 0 = Missed) demands label 1; the
rows also carry no slot-label column at all. -/
theorem c6_counterexample :
    c6dose.status = "Taken" ∧
    (featureTable15 [c6dose]).map (fun r => r.label) ≠ [true] ∧
    (featureTable15 [c6dose]).map (fun r => r.label) = [false] :=
  ⟨rfl, by decide, by decide⟩

/-- C6 (amended): the src/12medi.py builder emits one row per event with
hour-of-day 0-23 and day-of-week 0-6 taken from the occurrence timestamp,
the slot label merged in from the medication, and the stored taken flag as
the label (1 = Taken, 0 = Missed, as the logging UI writes it); the
src/15.py builder also emits one row per event with hour and weekday name,
but pairs it with the miss indicator (1 = Missed, 0 = Taken) and carries no
slot label. -/
theorem c6_feature_builder_amended (logs : List Dose12) (meds : List Med12)
    (ds : List Dose15) :
    (featureTable12 logs meds).length = logs.length ∧
    (∀ r, r ∈ featureTable12 logs meds ↔
      ∃ l ∈ logs, r = ⟨tsHour l.ts, tsDow l.ts, lookupTime12 meds l.medId, l.taken⟩) ∧
    (∀ r ∈ featureTable12 logs meds, r.hour < 24 ∧ r.dayofweek < 7) ∧
    (featureTable15 ds).length = ds.length ∧
    (∀ r, r ∈ featureTable15 ds ↔
      ∃ d ∈ ds, r = ⟨tsHour d.ts, tsDayName d.ts, d.status = "Missed"⟩) ∧
    (∀ r ∈ featureTable15 ds, r.hour < 24) := by
  refine ⟨by simp [featureTable12], ?_, ?_, by simp [featureTable15], ?_, ?_⟩
  · intro r
    simp only [featureTable12, List.mem_map]
    constructor
    · rintro ⟨l, hl, rfl⟩
      exact ⟨l, hl, rfl⟩
    · rintro ⟨l, hl, rfl⟩
      exact ⟨l, hl, rfl⟩
  · intro r hr
    obtain ⟨l, hl, rfl⟩ := List.mem_map.mp hr
    exact ⟨tsHour_lt _, tsDow_lt _⟩
  · intro r
    simp only [featureTable15, List.mem_map]
    constructor
    · rintro ⟨d, hd, rfl⟩
      exact ⟨d, hd, rfl⟩
    · rintro ⟨d, hd, rfl⟩
      exact ⟨d, hd, rfl⟩
  · intro r hr
    obtain ⟨d, hd, rfl⟩ := List.mem_map.mp hr
    exact tsHour_lt _

/-! ### C7 -/

/-- Patient 1's event: Monday 08:00, Taken. -/
def c7logA : Log1 := ⟨1, 1, 1, "08:00", "Taken", 480⟩

/-- Patient 2's event: Monday 21:00, Missed. -/
def c7logB : Log1 := ⟨2, 2, 2, "21:00", "Missed", 1260⟩

/-- C7 counterexample: appending patient 2's event leaves patient 1's own
log slice unchanged, yet it changes the feature table the Risk Prediction
branch of src/1medipredict.py trains on — that branch reads the log with no
patient filter, so the estimator answering patient 1's queries is fitted on
other patients' events too. -/
theorem c7_counterexample :
    insightsLogs1 [c7logA, c7logB] 1 = insightsLogs1 [c7logA] 1 ∧
    riskTrainTable1 [c7logA, c7logB] ≠ riskTrainTable1 [c7logA] :=
  ⟨by decide, by decide⟩

/-- C7 (amended): in src/15.py the whole insights pipeline is per-user —
appending a dose event for another user leaves a user's heat-map rows and
fitted model unchanged; the Adherence Insights branch of src/1medipredict.py
is likewise filtered per patient; only its Risk Prediction branch trains on
the unfiltered log (see the counterexample). -/
theorem c7_per_user_isolation_amended (s : St15) (uidA uidB mid ts : Nat)
    (status : String) (hne : uidB ≠ uidA) :
    (∀ p, insertDose15 s uidB mid ts status = .ok p →
        insights15 p.1 uidA = insights15 s uidA) ∧
    (∀ (logs : List Log1) (l : Log1) (pid : Nat), l.patientId ≠ pid →
        insightsLogs1 (logs ++ [l]) pid = insightsLogs1 logs pid) := by
  constructor
  · intro p hp
    rw [insertDose15] at hp
    split at hp
    · cases hp
      have hd : dosesByUser15
          (⟨s.users, s.meds, s.doses ++ [⟨s.nextDoseId, uidB, mid, ts, status⟩],
            s.nextUserId, s.nextMedId, s.nextDoseId + 1⟩ : St15) uidA =
          dosesByUser15 s uidA := by
        simp [dosesByUser15, List.filter_append, hne]
      simp only [insights15, hd]
    · cases hp
  · intro logs l pid hnep
    simp [insightsLogs1, get_logs1, List.filter_append, hnep]

/-- One dose of user 1 already stored. -/
def c7st : St15 := ⟨[], [], [⟨1, 1, 1, 480, "Taken"⟩], 1, 1, 2⟩

/-- Witness for the amended C7: user 2's insert leaves user 1's insights
unchanged, and a foreign patient's appended row leaves a patient's insights
slice in src/1medipredict.py unchanged. -/
theorem c7_per_user_isolation_amended_witness :
    (∀ p, insertDose15 c7st 2 1 1260 "Missed" = .ok p →
        insights15 p.1 1 = insights15 c7st 1) ∧
    (∀ (logs : List Log1) (l : Log1) (pid : Nat), l.patientId ≠ pid →
        insightsLogs1 (logs ++ [l]) pid = insightsLogs1 logs pid) :=
  c7_per_user_isolation_amended c7st 1 2 1 1260 "Missed" (by decide)

/-! ### C8 -/

/-- The state after registering alice with password hunter2. -/
def c8st1 : St15 := ⟨[⟨1, "alice", hash_pw "hunter2", 30, "Other"⟩], [], [], 2, 1, 1⟩

/-- The state after also registering bob with the same password. -/
def c8st2 : St15 :=
  ⟨[⟨1, "alice", hash_pw "hunter2", 30, "Other"⟩, ⟨2, "bob", hash_pw "hunter2", 40, "Other"⟩],
   [], [], 3, 1, 1⟩

/-- C8 counterexample: registering two different users with the same
password stores identical credentials — hash_pw is an unsalted SHA-256 of
the password alone — refuting the claim that the two stored credentials
differ. -/
theorem c8_counterexample :
    register15 emptySt15 "alice" "hunter2" 30 "Other" = .ok c8st1 ∧
    register15 c8st1 "bob" "hunter2" 40 "Other" = .ok c8st2 ∧
    credOf15 c8st2 "alice" = credOf15 c8st2 "bob" ∧
    ¬ credOf15 c8st2 "alice" ≠ credOf15 c8st2 "bob" :=
  ⟨rfl, rfl, rfl, fun hne => hne rfl⟩

/-- C8 (amended): the credential stored at registration is the unsalted
SHA-256 hex digest of the password alone — the appended users row carries
hash_pw p in its password column, the same string for every user
registering with p — and the stored value is a 64-character digest, never
the plaintext password itself (for any password whose length is not 64). -/
theorem c8_unsalted_hash_amended (s : St15) (u p : String) (age : Nat) (g : String)
    (hfree : ∀ w ∈ s.users, w.username ≠ u) (hlen : p.length ≠ 64) :
    register15 s u p age g =
      .ok ⟨s.users ++ [⟨s.nextUserId, u, hash_pw p, age, g⟩], s.meds, s.doses,
           s.nextUserId + 1, s.nextMedId, s.nextDoseId⟩ ∧
    hash_pw p ≠ p := by
  constructor
  · have hno : s.users.any (fun w => w.username = u) = false := by
      rw [List.any_eq_false]
      intro w hw
      simpa using hfree w hw
    simp [register15, hno]
  · intro hpp
    have hl := hash_pw_length p
    rw [hpp] at hl
    exact hlen hl

/-- Witness for the amended C8 at the seeded demo credentials. -/
theorem c8_unsalted_hash_amended_witness :
    register15 emptySt15 "demo" "demo" 42 "Other" =
      .ok ⟨[⟨1, "demo", hash_pw "demo", 42, "Other"⟩], [], [], 2, 1, 1⟩ ∧
    hash_pw "demo" ≠ "demo" :=
  c8_unsalted_hash_amended emptySt15 "demo" "demo" 42 "Other" (by decide) (by decide)

/-! ### C9 -/

/-- The risk probability the insights tab answers from one rendering: none
unless the rendering produced a successfully fitted model. -/
noncomputable def riskOfView
    (o : Option (List ((String × Nat × String) × Nat) × Except FitErr15 Model15))
    (wcat : List ℝ) (whour b : ℝ) (h : Nat) (d : String) : Option (Except EncErr ℝ) :=
  match o with
  | some (_, .ok m) => some (queryRisk15 m wcat whour b h d)
  | _ => none

/-- C9: rendering the insights tab issues only SELECT statements, so a
second rendering with no intervening dose insert reads the same database:
the heat-map counts and the fitted model of the two renderings are equal,
and therefore so is every risk probability answered from them, whatever
coefficients the deterministic fixed-seed fit produced. -/
theorem c9_insights_idempotent (s : St15) (uid : Nat) :
    (insightsView15 s uid).2 = s ∧
    (insightsView15 (insightsView15 s uid).2 uid).1 = (insightsView15 s uid).1 ∧
    (∀ (wcat : List ℝ) (whour b : ℝ) (h : Nat) (d : String),
      riskOfView (insightsView15 (insightsView15 s uid).2 uid).1 wcat whour b h d =
        riskOfView (insightsView15 s uid).1 wcat whour b h d) :=
  ⟨rfl, rfl, fun _ _ _ _ _ => rfl⟩

/-! ### C10 -/

/-- C10: with the meds table in id order (AUTOINCREMENT insertion order,
which is the rowid order the unsorted SELECT returns), the Log Dose action
of src/15.py resolves a medicine name through
meds.loc[meds.med_name == med, "id"].values[0]: the first matching row,
i.e. the matching medication of the user with the smallest id. -/
theorem c10_duplicate_name_resolves_to_smallest_id (s : St15) (uid : Nat)
    (name : String) (hsorted : s.meds.Pairwise (fun a b => a.id < b.id))
    (m : Med15) (hm : m ∈ medsByUser15 s uid) (hname : m.medName = name) :
    ∃ r, resolveMedId15 s uid name = some r ∧
      (∃ m2 ∈ medsByUser15 s uid, m2.medName = name ∧ m2.id = r) ∧
      (∀ m3 ∈ medsByUser15 s uid, m3.medName = name → r ≤ m3.id) := by
  have hml : m ∈ (medsByUser15 s uid).filter (fun x => x.medName = name) := by
    rw [List.mem_filter]
    exact ⟨hm, by simp [hname]⟩
  have hpl : ((medsByUser15 s uid).filter (fun x => x.medName = name)).Pairwise
      (fun a b => a.id < b.id) := by
    have h1 : List.Sublist (medsByUser15 s uid) s.meds := List.filter_sublist _
    have h2 : List.Sublist ((medsByUser15 s uid).filter (fun x => x.medName = name))
        (medsByUser15 s uid) := List.filter_sublist _
    exact hsorted.sublist (h2.trans h1)
  rcases hfl : (medsByUser15 s uid).filter (fun x => x.medName = name) with _ | ⟨hd, tl⟩
  · rw [hfl] at hml
    simp at hml
  · refine ⟨hd.id, ?_, ?_, ?_⟩
    · simp [resolveMedId15, hfl]
    · have hhd : hd ∈ (medsByUser15 s uid).filter (fun x => x.medName = name) := by
        rw [hfl]
        simp
      rw [List.mem_filter] at hhd
      exact ⟨hd, hhd.1, by simpa using hhd.2, rfl⟩
    · intro m3 hm3 hn3
      have hm3l : m3 ∈ (medsByUser15 s uid).filter (fun x => x.medName = name) := by
        rw [List.mem_filter]
        exact ⟨hm3, by simp [hn3]⟩
      rw [hfl] at hm3l hpl
      rcases List.mem_cons.mp hm3l with rfl | htl
      · exact le_refl _
      · exact le_of_lt ((List.pairwise_cons.mp hpl).1 m3 htl)

/-- User 1 stores two medicines both named Aspirin, ids 1 and 2. -/
def c10st : St15 :=
  ⟨[], [⟨1, 1, "Aspirin", "100 mg", "Morning"⟩, ⟨2, 1, "Aspirin", "200 mg", "Evening"⟩],
   [], 1, 3, 1⟩

/-- Witness for C10 at the duplicate-name state. -/
theorem c10_duplicate_name_resolves_to_smallest_id_witness :
    ∃ r, resolveMedId15 c10st 1 "Aspirin" = some r ∧
      (∃ m2 ∈ medsByUser15 c10st 1, m2.medName = "Aspirin" ∧ m2.id = r) ∧
      (∀ m3 ∈ medsByUser15 c10st 1, m3.medName = "Aspirin" → r ≤ m3.id) :=
  c10_duplicate_name_resolves_to_smallest_id c10st 1 "Aspirin" (by decide)
    ⟨1, 1, "Aspirin", "100 mg", "Morning"⟩ (by decide) rfl
